import Mathlib

set_option autoImplicit false

/-!
Verification development for the simple-batch job-execution engine.

The definitions below are a shallow embedding of the Python sources:
`processor/request_cache.py`, `processor/request_executor.py`,
`processor/job_processor.py`, `processor/scheduler.py`,
`curd/batch_requests_curd.py` and `curd/batch_job_curd.py`.
Database tables are embedded as lists of rows, the in-memory request
cache as an association list plus a duplicate-free list of dirty ids
(the Python `set`), and the SQL `UPDATE` statements as row-local maps.
Wall-clock timestamps are opaque strings produced by oracles; the
upstream API call is an oracle from the attempt index to a typed
outcome.  Bookkeeping columns never read by the code under scrutiny
(`create_time`, `update_time`) are omitted.
-/

namespace SimpleBatch

/-- Request lifecycle states, from `const.RequestStatus`. -/
inductive RequestStatus
  | pending
  | processing
  | success
  | failed
  | retrying
  deriving DecidableEq, Repr

/-- Job lifecycle states, from `const.JobStatus`. -/
inductive JobStatus
  | pending
  | processing
  | completed
  | failed
  | paused
  deriving DecidableEq, Repr

/-- One row of the `batch_requests` table / one `models.BatchRequest` record. -/
structure BatchRequest where
  id : Nat
  batch_job_id : Nat
  request_index : Nat
  messages : List (String × String)
  status : RequestStatus
  retry_count : Nat
  response_body : Option String
  prompt_tokens : Nat
  completion_tokens : Nat
  total_tokens : Nat
  start_time : Option String
  end_time : Option String
  deriving DecidableEq, Repr

/-- One row of the `batch_jobs` table / one `models.BatchJob` record. -/
structure BatchJobRow where
  id : Nat
  batch_name : String
  total_requests : Nat
  status : JobStatus
  api_info_id : Nat
  concurrency : Nat
  max_retries : Nat
  success_count : Nat
  failed_count : Nat
  start_time : Option String
  end_time : Option String
  deriving DecidableEq, Repr

/-- Python truthiness of an optional string (`if start_time:`): `None` and
the empty string are falsy. -/
def truthyStr : Option String → Bool
  | none => false
  | some s => !(s == "")

/-- The SQL predicate `status IN ('pending', 'processing', 'retrying')`
used by every finalize/recovery statement. -/
def isNonTerminal (s : RequestStatus) : Bool :=
  s == RequestStatus.pending || s == RequestStatus.processing || s == RequestStatus.retrying

/-- The SQL predicate `response_body IS NULL OR response_body = ''`. -/
def bodyEmpty : Option String → Bool
  | none => true
  | some s => s == ""

/-! ## Settings (`settings.py`) -/

def REQUEST_CACHE_BATCH_SIZE : Nat := 100

def REQUEST_CACHE_FLUSH_INTERVAL : Nat := 5

def RETRY_BACKOFF_BASE : Nat := 2

def DEFAULT_MAX_RETRIES : Nat := 3

/-! ## `curd/batch_requests_curd.py` -/

/-- Row effect of one tuple of `bulk_update_request_success`:
`SET status = 'success', response_body = ?, prompt_tokens = ?,
completion_tokens = ?, total_tokens = ?, start_time = ?, end_time = ?`
where `total_tokens` is `prompt_tokens + completion_tokens` of the update. -/
def applySuccessUpdate (u r : BatchRequest) : BatchRequest :=
  { r with status := RequestStatus.success, response_body := u.response_body,
           prompt_tokens := u.prompt_tokens, completion_tokens := u.completion_tokens,
           total_tokens := u.prompt_tokens + u.completion_tokens,
           start_time := u.start_time, end_time := u.end_time }

/-- Row effect of one tuple of `bulk_update_request_failure`:
`SET status = ?, retry_count = ?, end_time = ?`. -/
def applyFailureUpdate (u r : BatchRequest) : BatchRequest :=
  { r with status := u.status, retry_count := u.retry_count, end_time := u.end_time }

/-- Row effect of one tuple of `bulk_update_request_status`:
`SET status = ?, start_time = ?`. -/
def applyStatusUpdate (u r : BatchRequest) : BatchRequest :=
  { r with status := u.status, start_time := u.start_time }

/-- Shape shared by the three bulk writers: `executemany` applies each
update tuple to every row whose `id` matches. -/
def bulkApply (write : BatchRequest → BatchRequest → BatchRequest)
    (updates : List BatchRequest) (db : List BatchRequest) : List BatchRequest :=
  updates.foldl (fun acc u => acc.map (fun r => if r.id == u.id then write u r else r)) db

def bulk_update_request_success (updates db : List BatchRequest) : List BatchRequest :=
  bulkApply applySuccessUpdate updates db

def bulk_update_request_failure (updates db : List BatchRequest) : List BatchRequest :=
  bulkApply applyFailureUpdate updates db

def bulk_update_request_status (updates db : List BatchRequest) : List BatchRequest :=
  bulkApply applyStatusUpdate updates db

/-- The rows of one job, `SELECT * FROM batch_requests WHERE batch_job_id = ?`. -/
def get_requests_for_job (jobId : Nat) (db : List BatchRequest) : List BatchRequest :=
  db.filter (fun r => r.batch_job_id == jobId)

/-- `SELECT COUNT(*) FROM batch_requests WHERE batch_job_id = ?`. -/
def count_requests_for_job (jobId : Nat) (db : List BatchRequest) : Nat :=
  (get_requests_for_job jobId db).length

/-- `get_status_counts_for_job`: the number of `success` rows and of
`failed` rows of the job, as a pair. -/
def get_status_counts_for_job (jobId : Nat) (db : List BatchRequest) : Nat × Nat :=
  (db.countP (fun r => r.batch_job_id == jobId && r.status == RequestStatus.success),
   db.countP (fun r => r.batch_job_id == jobId && r.status == RequestStatus.failed))

/-- Row effect of `reset_processing_requests_for_job`:
`SET status = 'pending', start_time = NULL, end_time = NULL
WHERE batch_job_id = ? AND status IN ('processing', 'retrying')`. -/
def resetProcessingRow (jobId : Nat) (r : BatchRequest) : BatchRequest :=
  if r.batch_job_id == jobId &&
      (r.status == RequestStatus.processing || r.status == RequestStatus.retrying) then
    { r with status := RequestStatus.pending, start_time := none, end_time := none }
  else r

def reset_processing_requests_for_job (jobId : Nat) (db : List BatchRequest) :
    List BatchRequest :=
  db.map (resetProcessingRow jobId)

/-- Row effect of `reset_failed_requests_for_job`:
`SET status = 'pending', start_time = NULL, end_time = NULL, retry_count = 0
WHERE batch_job_id = ? AND status = 'failed'`. -/
def resetFailedRow (jobId : Nat) (r : BatchRequest) : BatchRequest :=
  if r.batch_job_id == jobId && r.status == RequestStatus.failed then
    { r with status := RequestStatus.pending, start_time := none, end_time := none,
             retry_count := 0 }
  else r

def reset_failed_requests_for_job (jobId : Nat) (db : List BatchRequest) :
    List BatchRequest :=
  db.map (resetFailedRow jobId)

/-- First statement of `finalize_incomplete_requests_for_job` (the conditional
finalize): a non-terminal row of the job with a non-empty response body and
positive `total_tokens` which additionally has exhausted its retries (or has an
empty body, which is unsatisfiable here) is marked `success`; its `end_time`
is `COALESCE(end_time, now)`. -/
def finalizeCondSuccessRow (jobId maxRetries : Nat) (now : String) (r : BatchRequest) :
    BatchRequest :=
  if r.batch_job_id == jobId && isNonTerminal r.status &&
      !(bodyEmpty r.response_body) && decide (0 < r.total_tokens) &&
      (decide (maxRetries ≤ r.retry_count) || bodyEmpty r.response_body) then
    { r with status := RequestStatus.success, end_time := some (r.end_time.getD now) }
  else r

/-- Second statement of `finalize_incomplete_requests_for_job`: a row of the
job still non-terminal which has exhausted its retries or has an empty
response body is marked `failed` with `end_time = now`. -/
def finalizeCondFailedRow (jobId maxRetries : Nat) (now : String) (r : BatchRequest) :
    BatchRequest :=
  if r.batch_job_id == jobId && isNonTerminal r.status &&
      (decide (maxRetries ≤ r.retry_count) || bodyEmpty r.response_body) then
    { r with status := RequestStatus.failed, end_time := some now }
  else r

/-- The conditional finalize: the success statement runs first over the whole
table, then the failure statement. -/
def finalize_incomplete_requests_for_job (jobId maxRetries : Nat) (now : String)
    (db : List BatchRequest) : List BatchRequest :=
  (db.map (finalizeCondSuccessRow jobId maxRetries now)).map
    (finalizeCondFailedRow jobId maxRetries now)

/-- First statement of `finalize_all_incomplete_requests_for_job` (the
unconditional finalize): any non-terminal row of the job with a non-empty
response body and positive `total_tokens` is marked `success`. -/
def finalizeAllSuccessRow (jobId : Nat) (now : String) (r : BatchRequest) : BatchRequest :=
  if r.batch_job_id == jobId && isNonTerminal r.status &&
      !(bodyEmpty r.response_body) && decide (0 < r.total_tokens) then
    { r with status := RequestStatus.success, end_time := some (r.end_time.getD now) }
  else r

/-- Second statement of `finalize_all_incomplete_requests_for_job`: every row
of the job still non-terminal is marked `failed`. -/
def finalizeAllFailedRow (jobId : Nat) (now : String) (r : BatchRequest) : BatchRequest :=
  if r.batch_job_id == jobId && isNonTerminal r.status then
    { r with status := RequestStatus.failed, end_time := some now }
  else r

/-- The unconditional finalize used by `_finalize_job_processing`. -/
def finalize_all_incomplete_requests_for_job (jobId : Nat) (now : String)
    (db : List BatchRequest) : List BatchRequest :=
  (db.map (finalizeAllSuccessRow jobId now)).map (finalizeAllFailedRow jobId now)

/-! ## `curd/batch_job_curd.py` -/

/-- Row effect of `update_job_status` on the rows with the id: set `status`,
and `start_time`/`end_time` only when the corresponding optional argument is
truthy. -/
def updateJobStatusRow (jobId : Nat) (status : JobStatus)
    (start_time end_time : Option String) (j : BatchJobRow) : BatchJobRow :=
  if j.id == jobId then
    { j with status := status,
             start_time := if truthyStr start_time then start_time else j.start_time,
             end_time := if truthyStr end_time then end_time else j.end_time }
  else j

/-- `update_job_status`: sets `status`, and `start_time`/`end_time` only when
the corresponding optional argument is truthy, on every row with the id. -/
def update_job_status (jobId : Nat) (status : JobStatus)
    (start_time end_time : Option String) (jobs : List BatchJobRow) : List BatchJobRow :=
  jobs.map (updateJobStatusRow jobId status start_time end_time)

/-- `update_job_total_requests`. -/
def update_job_total_requests (jobId total : Nat) (jobs : List BatchJobRow) :
    List BatchJobRow :=
  jobs.map (fun j => if j.id == jobId then { j with total_requests := total } else j)

/-- `update_job_stats`: writes the success and failure counters. -/
def update_job_stats (jobId succ fail : Nat) (jobs : List BatchJobRow) : List BatchJobRow :=
  jobs.map (fun j =>
    if j.id == jobId then { j with success_count := succ, failed_count := fail } else j)

/-- Row effect of `reset_job_stats`:
`SET success_count = 0, failed_count = 0, start_time = NULL, end_time = NULL`. -/
def resetJobStatsRow (jobId : Nat) (j : BatchJobRow) : BatchJobRow :=
  if j.id == jobId then
    { j with success_count := 0, failed_count := 0, start_time := none, end_time := none }
  else j

def reset_job_stats (jobId : Nat) (jobs : List BatchJobRow) : List BatchJobRow :=
  jobs.map (resetJobStatsRow jobId)

/-- `get_jobs_by_status`. -/
def get_jobs_by_status (status : JobStatus) (jobs : List BatchJobRow) : List BatchJobRow :=
  jobs.filter (fun j => j.status == status)

/-- `get_incomplete_completed_jobs`: jobs marked `completed` that still own a
non-terminal request. -/
def get_incomplete_completed_jobs (jobs : List BatchJobRow) (reqs : List BatchRequest) :
    List BatchJobRow :=
  jobs.filter (fun j => j.status == JobStatus.completed &&
    reqs.any (fun r => r.batch_job_id == j.id && isNonTerminal r.status))

/-! ## `processor/request_cache.py` -/

/-- The in-memory state of a `RequestCache`.  The Python dict
`self.requests` is an association list from request id to record, and the
Python set `self.dirty_request_ids` a duplicate-free list of ids. -/
structure RequestCache where
  requests : List (Nat × BatchRequest)
  dirty_request_ids : List Nat
  batch_size : Nat
  last_flush_time : Nat
  flush_interval : Nat
  deriving DecidableEq, Repr

/-- Dictionary lookup `self.requests[request_id]` / `request_id in self.requests`. -/
def lookupReq : List (Nat × BatchRequest) → Nat → Option BatchRequest
  | [], _ => none
  | kv :: rest, i => if kv.1 = i then some kv.2 else lookupReq rest i

/-- Dictionary assignment of an id that is already a key (the only way the
cache mutators write): replace the value stored under that key. -/
def setReq (l : List (Nat × BatchRequest)) (i : Nat) (v : BatchRequest) :
    List (Nat × BatchRequest) :=
  l.map (fun kv => if kv.1 = i then (kv.1, v) else kv)

/-- `load_requests_for_job`: hydrate the cache from the job's stored rows,
keyed by id.  `now` is the construction-time `time.time()` reading. -/
def load_requests_for_job (jobId : Nat) (now : Nat) (db : List BatchRequest) :
    RequestCache :=
  { requests := (get_requests_for_job jobId db).map (fun r => (r.id, r)),
    dirty_request_ids := [],
    batch_size := REQUEST_CACHE_BATCH_SIZE,
    last_flush_time := now,
    flush_interval := REQUEST_CACHE_FLUSH_INTERVAL }

/-- `get_pending_requests`. -/
def get_pending_requests (c : RequestCache) : List BatchRequest :=
  (c.requests.map (fun kv => kv.2)).filter (fun r => r.status == RequestStatus.pending)

/-- `update_request_status`: when the id is present, set the status, set the
start time only when the argument is truthy, and mark the record dirty. -/
def update_request_status (c : RequestCache) (request_id : Nat) (status : RequestStatus)
    (start_time : Option String) : RequestCache :=
  match lookupReq c.requests request_id with
  | none => c
  | some req =>
    let req1 := { req with
                  status := status,
                  start_time := if truthyStr start_time then start_time else req.start_time }
    { c with requests := setReq c.requests request_id req1,
             dirty_request_ids := c.dirty_request_ids.insert request_id }

/-- `update_request_as_success`: when the id is present, record the response
body, token counts (`total = prompt + completion`), end time, and mark dirty. -/
def update_request_as_success (c : RequestCache) (request_id : Nat)
    (response_body : String) (p_tokens c_tokens : Nat) (end_time : String) : RequestCache :=
  match lookupReq c.requests request_id with
  | none => c
  | some req =>
    let req1 := { req with
                  status := RequestStatus.success,
                  response_body := some response_body,
                  prompt_tokens := p_tokens, completion_tokens := c_tokens,
                  total_tokens := p_tokens + c_tokens, end_time := some end_time }
    { c with requests := setReq c.requests request_id req1,
             dirty_request_ids := c.dirty_request_ids.insert request_id }

/-- `update_request_as_failed`: when the id is present, set the final status
(`failed` or `retrying`), the new retry count and end time, and mark dirty. -/
def update_request_as_failed (c : RequestCache) (request_id : Nat) (end_time : String)
    (new_retry_count : Nat) (final_status : RequestStatus) : RequestCache :=
  match lookupReq c.requests request_id with
  | none => c
  | some req =>
    let req1 := { req with
                  status := final_status, retry_count := new_retry_count,
                  end_time := some end_time }
    { c with requests := setReq c.requests request_id req1,
             dirty_request_ids := c.dirty_request_ids.insert request_id }

/-- The local `requests_to_sync` of `flush_updates`: the records of the dirty
ids that are present in the map. -/
def requestsToSync (c : RequestCache) : List BatchRequest :=
  c.dirty_request_ids.filterMap (fun i => lookupReq c.requests i)

/-- The `success_requests` partition of `flush_updates`. -/
def successBatch (c : RequestCache) : List BatchRequest :=
  (requestsToSync c).filter (fun r => r.status == RequestStatus.success)

/-- The `failed_requests` partition of `flush_updates`. -/
def failedBatch (c : RequestCache) : List BatchRequest :=
  (requestsToSync c).filter (fun r => r.status == RequestStatus.failed)

/-- The `processing_requests` partition of `flush_updates`. -/
def processingBatch (c : RequestCache) : List BatchRequest :=
  (requestsToSync c).filter
    (fun r => r.status == RequestStatus.processing || r.status == RequestStatus.retrying)

/-- Failure injection for a flush: whether each of the three bulk writes,
when attempted, succeeds or raises. -/
structure FlushFault where
  success_write_ok : Bool
  failed_write_ok : Bool
  processing_write_ok : Bool
  deriving DecidableEq, Repr

/-- Result of a flush: the new cache state, the new stored table, the ids
written by the three batches, and whether the flush completed without an
exception. -/
structure FlushResult where
  cache : RequestCache
  db : List BatchRequest
  flushed_ids : List Nat
  ok : Bool
  deriving DecidableEq, Repr

/-- `flush_updates`: no-op when nothing is dirty; otherwise flush when forced,
when the dirty set reaches the batch size, or when the flush interval elapsed.
The dirty set is cleared up front; each nonempty batch is one bulk write and
an exception in one of them aborts the rest, re-adds the dirty ids
(`self.dirty_request_ids.update(dirty_ids)`) and leaves `last_flush_time`
alone; only a fully successful pass advances `last_flush_time`. -/
def flush_updates (c : RequestCache) (force : Bool) (current_time : Nat)
    (fault : FlushFault) (db : List BatchRequest) : FlushResult :=
  if c.dirty_request_ids = [] then ⟨c, db, [], true⟩
  else if force || decide (c.batch_size ≤ c.dirty_request_ids.length)
      || decide (c.flush_interval ≤ current_time - c.last_flush_time) then
    let cleared : RequestCache := { c with dirty_request_ids := [] }
    let redirtied : RequestCache :=
      { cleared with dirty_request_ids := cleared.dirty_request_ids ∪ c.dirty_request_ids }
    if (successBatch c).isEmpty = false ∧ fault.success_write_ok = false then
      ⟨redirtied, db, [], false⟩
    else
      let db1 := bulk_update_request_success (successBatch c) db
      if (failedBatch c).isEmpty = false ∧ fault.failed_write_ok = false then
        ⟨redirtied, db1, [], false⟩
      else
        let db2 := bulk_update_request_failure (failedBatch c) db1
        if (processingBatch c).isEmpty = false ∧ fault.processing_write_ok = false then
          ⟨redirtied, db2, [], false⟩
        else
          ⟨{ cleared with last_flush_time := current_time },
            bulk_update_request_status (processingBatch c) db2,
            (successBatch c).map (fun r => r.id) ++ (failedBatch c).map (fun r => r.id)
              ++ (processingBatch c).map (fun r => r.id),
            true⟩
  else ⟨c, db, [], true⟩

/-! ## `processor/request_executor.py` -/

/-- Typed outcome of one upstream chat-completion call: a parsed success, an
`APIError`/`APITimeoutError` (timeouts, rate limits and generic API failures
are all caught by the same handler), or any other exception. -/
inductive ApiOutcome
  | success (response_body : String) (prompt_tokens completion_tokens : Nat)
  | apiError
  | otherError
  deriving DecidableEq, Repr

/-- Result of running one request executor: the final cache state and the
list of backoff sleeps performed, in order. -/
structure ExecResult where
  cache : RequestCache
  sleeps : List Nat
  deriving DecidableEq, Repr

/-- The backoff sleep before the next attempt, from
`await asyncio.sleep(settings.RETRY_BACKOFF_BASE ** attempt)`. -/
def backoff_sleep (base attempt : Nat) : Nat := base ^ attempt

/-- The attempt loop of `execute_request` (`for attempt in range(max_attempts)`),
as a recursion on the number of remaining iterations.  `outcomes k` is the
upstream outcome of attempt `k`; `existsAt k` and `existsRetry k` are the two
job-existence polls of attempt `k` (at its start and before its retry);
`startT`/`endT` are the wall-clock readings; pause waits do not change state
and are elided. -/
def execLoop (outcomes : Nat → ApiOutcome) (existsAt existsRetry : Nat → Bool)
    (startT endT : Nat → String) (base : Nat) (request_id : Nat) (maxAttempts : Nat) :
    Nat → Nat → RequestCache → ExecResult
  | 0, _, cache => ⟨cache, []⟩
  | remaining + 1, attempt, cache =>
    if existsAt attempt = false then ⟨cache, []⟩
    else
      let cache1 := update_request_status cache request_id
        (if attempt == 0 then RequestStatus.processing else RequestStatus.retrying)
        (some (startT attempt))
      match outcomes attempt with
      | ApiOutcome.success body p c =>
        ⟨update_request_as_success cache1 request_id body p c (endT attempt), []⟩
      | ApiOutcome.apiError =>
        if attempt < maxAttempts - 1 then
          if existsRetry attempt = false then ⟨cache1, []⟩
          else
            let cache2 := update_request_as_failed cache1 request_id (endT attempt)
              (attempt + 1) RequestStatus.retrying
            let rest := execLoop outcomes existsAt existsRetry startT endT base request_id
              maxAttempts remaining (attempt + 1) cache2
            ⟨rest.cache, backoff_sleep base attempt :: rest.sleeps⟩
        else
          ⟨update_request_as_failed cache1 request_id (endT attempt) (attempt + 1)
            RequestStatus.failed, []⟩
      | ApiOutcome.otherError =>
        ⟨update_request_as_failed cache1 request_id (endT attempt) (attempt + 1)
          RequestStatus.failed, []⟩

/-- `execute_request`: the attempt budget is `max_attempts = max(1, job.max_retries)`
and the loop starts at attempt index 0. -/
def execute_request (outcomes : Nat → ApiOutcome) (existsAt existsRetry : Nat → Bool)
    (startT endT : Nat → String) (base : Nat) (request_id max_retries : Nat)
    (cache : RequestCache) : ExecResult :=
  execLoop outcomes existsAt existsRetry startT endT base request_id (max 1 max_retries)
    (max 1 max_retries) 0 cache

/-! ## `processor/job_processor.py` -/

/-- Result of `_finalize_job_processing`: the stored requests after the
unconditional finalize, the reconciled total, the success and failure counts
written by `update_job_stats`, and the terminal job status written. -/
structure JobFinalizeResult where
  db : List BatchRequest
  total : Nat
  succ : Nat
  fail : Nat
  final_status : JobStatus
  deriving DecidableEq, Repr

/-- `_finalize_job_processing` (exception-free path): run the unconditional
finalize, read the success/failure counts, reconcile `total_requests` with the
actual stored row count, write the stats, and decide the terminal status:
`completed` when `succ + fail ≥ total` and `total > 0`, or when `total == 0`;
otherwise `failed`. -/
def finalize_job_processing (jobId reported_total : Nat) (now : String)
    (db : List BatchRequest) : JobFinalizeResult :=
  let db1 := finalize_all_incomplete_requests_for_job jobId now db
  let counts := get_status_counts_for_job jobId db1
  let succ := counts.1
  let fail := counts.2
  let actual_total := count_requests_for_job jobId db1
  let total := if reported_total ≠ actual_total then actual_total else reported_total
  let final_status :=
    if (succ + fail ≥ total ∧ 0 < total) ∨ total = 0 then JobStatus.completed
    else JobStatus.failed
  ⟨db1, total, succ, fail, final_status⟩

/-- `_finalize_incomplete_requests`: the conditional finalize pass of the
job processor cleanup phase, delegating to the conditional CURD statement
with the job's `max_retries`. -/
def finalize_incomplete_requests (jobId max_retries : Nat) (now : String)
    (db : List BatchRequest) : List BatchRequest :=
  finalize_incomplete_requests_for_job jobId max_retries now db

/-! ## `processor/scheduler.py` -/

/-- The persistent store visible to the recovery sweep. -/
structure DbState where
  jobs : List BatchJobRow
  requests : List BatchRequest
  deriving DecidableEq, Repr

/-- `recover_incomplete_jobs`: gather the jobs stuck in `processing` plus the
`completed` jobs that still own non-terminal requests; for each of them reset
its `processing`/`retrying` requests to `pending` and set the job back to
`pending`; then, for the completed-but-incomplete ones only, reset the job
stats. -/
def recover_incomplete_jobs (db : DbState) : DbState :=
  let stuck_jobs := get_jobs_by_status JobStatus.processing db.jobs
  let incomplete_completed_jobs := get_incomplete_completed_jobs db.jobs db.requests
  let all_jobs_to_recover := stuck_jobs ++ incomplete_completed_jobs
  let db1 := all_jobs_to_recover.foldl
    (fun s j =>
      { requests := reset_processing_requests_for_job j.id s.requests,
        jobs := update_job_status j.id JobStatus.pending none none s.jobs })
    db
  incomplete_completed_jobs.foldl
    (fun s j => { s with jobs := reset_job_stats j.id s.jobs }) db1

/-! ## Lemmas about the cache map -/

theorem lookupReq_setReq (l : List (Nat × BatchRequest)) (i j : Nat) (v : BatchRequest) :
    lookupReq (setReq l i v) j =
      if i = j then (lookupReq l j).map (fun _ => v) else lookupReq l j := by
  induction l with
  | nil =>
    simp only [setReq, List.map_nil, lookupReq]
    split <;> rfl
  | cons kv rest ih =>
    simp only [setReq, List.map_cons] at *
    by_cases hi : kv.1 = i
    · by_cases hj : i = j
      · subst hj
        simp [lookupReq, hi]
      · have hkj : kv.1 ≠ j := by rw [hi]; exact hj
        simp [lookupReq, hi, hkj, hj, ih]
    · by_cases hkj : kv.1 = j
      · have hij : i ≠ j := by
          intro he
          exact hi (by rw [he, hkj])
        simp [lookupReq, hi, hkj, hij, Ne.symm hij]
      · simp [lookupReq, hi, hkj, ih]

theorem lookup_update_request_status (c : RequestCache) (rid : Nat) (st : RequestStatus)
    (t : Option String) (j : Nat) :
    lookupReq (update_request_status c rid st t).requests j =
      if rid = j then
        (lookupReq c.requests j).map (fun req =>
          { req with
            status := st,
            start_time := if truthyStr t then t else req.start_time })
      else lookupReq c.requests j := by
  unfold update_request_status
  cases h : lookupReq c.requests rid with
  | none =>
    by_cases hj : rid = j
    · subst hj; simp [h]
    · simp [hj]
  | some req =>
    by_cases hj : rid = j
    · subst hj; simp [h, lookupReq_setReq]
    · simp [h, lookupReq_setReq, hj]

theorem lookup_update_request_as_success (c : RequestCache) (rid : Nat) (body : String)
    (p ct : Nat) (et : String) (j : Nat) :
    lookupReq (update_request_as_success c rid body p ct et).requests j =
      if rid = j then
        (lookupReq c.requests j).map (fun req =>
          { req with
            status := RequestStatus.success, response_body := some body,
            prompt_tokens := p, completion_tokens := ct,
            total_tokens := p + ct, end_time := some et })
      else lookupReq c.requests j := by
  unfold update_request_as_success
  cases h : lookupReq c.requests rid with
  | none =>
    by_cases hj : rid = j
    · subst hj; simp [h]
    · simp [hj]
  | some req =>
    by_cases hj : rid = j
    · subst hj; simp [h, lookupReq_setReq]
    · simp [h, lookupReq_setReq, hj]

theorem lookup_update_request_as_failed (c : RequestCache) (rid : Nat) (et : String)
    (rc : Nat) (fs : RequestStatus) (j : Nat) :
    lookupReq (update_request_as_failed c rid et rc fs).requests j =
      if rid = j then
        (lookupReq c.requests j).map (fun req =>
          { req with status := fs, retry_count := rc, end_time := some et })
      else lookupReq c.requests j := by
  unfold update_request_as_failed
  cases h : lookupReq c.requests rid with
  | none =>
    by_cases hj : rid = j
    · subst hj; simp [h]
    · simp [hj]
  | some req =>
    by_cases hj : rid = j
    · subst hj; simp [h, lookupReq_setReq]
    · simp [h, lookupReq_setReq, hj]

/-! ## C10 -/

/-- C10: each `RequestCache` mutator called with a request id that is not a
key of the request map returns the cache unchanged (request map and dirty set
untouched) and raises no error. -/
theorem cache_mutators_noop_on_missing_id (c : RequestCache) (rid : Nat)
    (h : lookupReq c.requests rid = none) (st : RequestStatus) (t : Option String)
    (body : String) (p ct : Nat) (et : String) (rc : Nat) (fs : RequestStatus) :
    update_request_status c rid st t = c ∧
    update_request_as_success c rid body p ct et = c ∧
    update_request_as_failed c rid et rc fs = c := by
  refine ⟨?_, ?_, ?_⟩ <;>
    simp [update_request_status, update_request_as_success, update_request_as_failed, h]

/-- Witness for C10 at a concrete cache with an empty request map. -/
theorem cache_mutators_noop_on_missing_id_witness :
    update_request_status ⟨[], [], 100, 0, 5⟩ 7 RequestStatus.processing (some "s") =
      (⟨[], [], 100, 0, 5⟩ : RequestCache) ∧
    update_request_as_success ⟨[], [], 100, 0, 5⟩ 7 "b" 1 2 "e" =
      (⟨[], [], 100, 0, 5⟩ : RequestCache) ∧
    update_request_as_failed ⟨[], [], 100, 0, 5⟩ 7 "e" 1 RequestStatus.failed =
      (⟨[], [], 100, 0, 5⟩ : RequestCache) :=
  cache_mutators_noop_on_missing_id ⟨[], [], 100, 0, 5⟩ 7 rfl RequestStatus.processing
    (some "s") "b" 1 2 "e" 1 RequestStatus.failed

/-! ## C1 -/

theorem reconcile_total (a b : Nat) : (if a ≠ b then b else a) = b := by
  by_cases h : a = b <;> simp [h]

theorem if_status_completed_iff (cond : Prop) [Decidable cond] :
    ((if cond then JobStatus.completed else JobStatus.failed) = JobStatus.completed ↔ cond) := by
  by_cases h : cond <;> simp [h]

/-- C1: the unconditional finalize reconciles the job total to the actual
stored row count and then marks the job `completed` exactly when
`success_count + failed_count ≥ total_requests` with `total_requests > 0`, or
`total_requests = 0`; in every other case it marks the job `failed`. -/
theorem finalize_job_status_completed_iff (jobId reported_total : Nat) (now : String)
    (db : List BatchRequest) :
    (finalize_job_processing jobId reported_total now db).total =
      count_requests_for_job jobId (finalize_job_processing jobId reported_total now db).db ∧
    ((finalize_job_processing jobId reported_total now db).final_status =
        JobStatus.completed ↔
      ((finalize_job_processing jobId reported_total now db).succ +
            (finalize_job_processing jobId reported_total now db).fail ≥
          count_requests_for_job jobId
            (finalize_job_processing jobId reported_total now db).db ∧
        0 < count_requests_for_job jobId
            (finalize_job_processing jobId reported_total now db).db) ∨
      count_requests_for_job jobId (finalize_job_processing jobId reported_total now db).db
        = 0) := by
  unfold finalize_job_processing
  dsimp only
  rw [reconcile_total]
  exact ⟨rfl, if_status_completed_iff _⟩

/-! ## C3 -/

/-- C3: the conditional finalize terminalizes a still-non-terminal request of
the job only when its attempts are exhausted (`retry_count ≥ max_retries`) or
its response body is empty; a terminalized request becomes `success` when it
carries a non-empty body and positive `total_tokens`, and `failed` otherwise;
a non-terminal request with a non-empty body and unexhausted attempts is left
unchanged. -/
theorem conditional_finalize_spec (jobId maxR : Nat) (now : String)
    (db : List BatchRequest) (r : BatchRequest) (hmem : r ∈ db)
    (hown : r.batch_job_id = jobId) (hnt : isNonTerminal r.status = true) :
    (r.retry_count < maxR → bodyEmpty r.response_body = false →
      r ∈ finalize_incomplete_requests_for_job jobId maxR now db) ∧
    ((maxR ≤ r.retry_count ∨ bodyEmpty r.response_body = true) →
      (bodyEmpty r.response_body = false → 0 < r.total_tokens →
        { r with status := RequestStatus.success, end_time := some (r.end_time.getD now) }
          ∈ finalize_incomplete_requests_for_job jobId maxR now db) ∧
      (bodyEmpty r.response_body = true ∨ r.total_tokens = 0 →
        { r with status := RequestStatus.failed, end_time := some now }
          ∈ finalize_incomplete_requests_for_job jobId maxR now db)) := by
  unfold finalize_incomplete_requests_for_job
  refine ⟨fun h1 h2 => ?_, fun h3 => ⟨fun h4 h5 => ?_, fun h6 => ?_⟩⟩
  · have hf : finalizeCondSuccessRow jobId maxR now r = r := by
      simp [finalizeCondSuccessRow, h2, Nat.not_le.mpr h1]
    have hg : finalizeCondFailedRow jobId maxR now r = r := by
      simp [finalizeCondFailedRow, h2, Nat.not_le.mpr h1]
    have := List.mem_map_of_mem (finalizeCondFailedRow jobId maxR now)
      (List.mem_map_of_mem (finalizeCondSuccessRow jobId maxR now) hmem)
    rwa [hf, hg] at this
  · have hexh : maxR ≤ r.retry_count := by
      cases h3 with
      | inl h => exact h
      | inr h => rw [h4] at h; exact absurd h (by simp)
    have hf : finalizeCondSuccessRow jobId maxR now r =
        { r with status := RequestStatus.success,
                 end_time := some (r.end_time.getD now) } := by
      simp [finalizeCondSuccessRow, hown, hnt, h4, h5, hexh]
    have hg : finalizeCondFailedRow jobId maxR now
        { r with status := RequestStatus.success,
                 end_time := some (r.end_time.getD now) } =
        { r with status := RequestStatus.success,
                 end_time := some (r.end_time.getD now) } := by
      simp [finalizeCondFailedRow, isNonTerminal]
    have := List.mem_map_of_mem (finalizeCondFailedRow jobId maxR now)
      (List.mem_map_of_mem (finalizeCondSuccessRow jobId maxR now) hmem)
    rwa [hf, hg] at this
  · have hf : finalizeCondSuccessRow jobId maxR now r = r := by
      cases h6 with
      | inl h => simp [finalizeCondSuccessRow, h]
      | inr h => simp [finalizeCondSuccessRow, h]
    have hg : finalizeCondFailedRow jobId maxR now r =
        { r with status := RequestStatus.failed, end_time := some now } := by
      cases h3 with
      | inl h => simp [finalizeCondFailedRow, hown, hnt, h]
      | inr h => simp [finalizeCondFailedRow, hown, hnt, h]
    have := List.mem_map_of_mem (finalizeCondFailedRow jobId maxR now)
      (List.mem_map_of_mem (finalizeCondSuccessRow jobId maxR now) hmem)
    rwa [hf, hg] at this

/-! ## Executor run lemmas -/

theorem lookup_after_mark_attempt (cache : RequestCache) (rid : Nat) (st : RequestStatus)
    (t : Option String) (r0 : BatchRequest) (h : lookupReq cache.requests rid = some r0) :
    lookupReq (update_request_status cache rid st t).requests rid =
      some { r0 with
             status := st,
             start_time := if truthyStr t then t else r0.start_time } := by
  rw [lookup_update_request_status]
  simp [h]

theorem lookup_after_mark_failed (cache : RequestCache) (rid : Nat) (et : String) (rc : Nat)
    (fs : RequestStatus) (r0 : BatchRequest) (h : lookupReq cache.requests rid = some r0) :
    lookupReq (update_request_as_failed cache rid et rc fs).requests rid =
      some { r0 with status := fs, retry_count := rc, end_time := some et } := by
  rw [lookup_update_request_as_failed]
  simp [h]

/-- Characterization of one executor run in which every upstream call raises
an API error: starting from attempt index `attempt` with `remaining`
iterations left, the request ends `failed` with `retry_count = maxAttempts`
and one backoff sleep of `base ^ k` was taken after each non-final attempt. -/
theorem execLoop_all_apiError (outcomes : Nat → ApiOutcome) (startT endT : Nat → String)
    (base rid maxA : Nat) (hall : ∀ k, outcomes k = ApiOutcome.apiError) :
    ∀ (remaining attempt : Nat) (cache : RequestCache) (r0 : BatchRequest),
      attempt + remaining = maxA → 1 ≤ remaining →
      lookupReq cache.requests rid = some r0 →
      (∃ r1 : BatchRequest,
        lookupReq (execLoop outcomes (fun _ => true) (fun _ => true) startT endT base rid
            maxA remaining attempt cache).cache.requests rid = some r1 ∧
        r1.status = RequestStatus.failed ∧ r1.retry_count = maxA) ∧
      (execLoop outcomes (fun _ => true) (fun _ => true) startT endT base rid maxA
          remaining attempt cache).sleeps =
        (List.range (remaining - 1)).map (fun j => backoff_sleep base (attempt + j)) := by
  intro remaining
  induction remaining with
  | zero => intro attempt cache r0 h1 h2 h3; omega
  | succ rem ih =>
    intro attempt cache r0 h1 h2 h3
    have hc1 := lookup_after_mark_attempt cache rid
      (if attempt == 0 then RequestStatus.processing else RequestStatus.retrying)
      (some (startT attempt)) r0 h3
    by_cases hlt : attempt < maxA - 1
    · have hrem : 1 ≤ rem := by omega
      have hc2 := lookup_after_mark_failed _ rid (endT attempt) (attempt + 1)
        RequestStatus.retrying _ hc1
      have hrec := ih (attempt + 1) _ _ (by omega) hrem hc2
      simp only [execLoop, hall attempt]
      simp only [show ((fun (_ : Nat) => true) attempt = false) = False by simp,
        if_false, if_neg (by simp : ¬((fun (_ : Nat) => true) attempt = false))]
      rw [if_pos hlt]
      simp only [if_neg (by simp : ¬((fun (_ : Nat) => true) attempt = false))]
      refine ⟨hrec.1, ?_⟩
      rw [hrec.2]
      obtain ⟨rm, hrm⟩ : ∃ rm, rem = rm + 1 := ⟨rem - 1, by omega⟩
      subst hrm
      simp only [Nat.add_sub_cancel]
      rw [List.range_succ_eq_map]
      simp only [List.map_cons, List.map_map]
      refine congrArg₂ _ (by simp [backoff_sleep]) ?_
      apply List.map_congr_left
      intro a _
      simp only [Function.comp]
      refine congrArg _ (by omega)
    · have hrem0 : rem = 0 := by omega
      have hatt : attempt + 1 = maxA := by omega
      have hc2 := lookup_after_mark_failed _ rid (endT attempt) (attempt + 1)
        RequestStatus.failed _ hc1
      simp only [execLoop, hall attempt]
      simp only [if_neg (by simp : ¬((fun (_ : Nat) => true) attempt = false))]
      rw [if_neg hlt]
      refine ⟨⟨_, hc2, rfl, hatt⟩, ?_⟩
      simp [hrem0]

/-- The unconditional finalize leaves a table alone when every request of the
job is already `failed`. -/
theorem finalize_all_noop_of_all_failed (jobId : Nat) (now : String) (db : List BatchRequest)
    (h : ∀ r ∈ db, r.batch_job_id = jobId → r.status = RequestStatus.failed) :
    finalize_all_incomplete_requests_for_job jobId now db = db := by
  unfold finalize_all_incomplete_requests_for_job
  rw [List.map_map]
  have hid : ∀ r ∈ db,
      (finalizeAllFailedRow jobId now ∘ finalizeAllSuccessRow jobId now) r = r := by
    intro r hr
    by_cases ho : r.batch_job_id = jobId
    · have hs := h r hr ho
      simp [finalizeAllSuccessRow, finalizeAllFailedRow, hs, isNonTerminal, Function.comp]
    · simp [finalizeAllSuccessRow, finalizeAllFailedRow, ho, Function.comp]
  rw [List.map_congr_left hid]
  exact List.map_id db

/-- When every stored request of the job is `failed`, the unconditional
finalize decides `completed` (the failure count equals the row count). -/
theorem finalize_job_all_failed_completed (jobId rt : Nat) (now : String)
    (db : List BatchRequest)
    (h : ∀ r ∈ db, r.batch_job_id = jobId → r.status = RequestStatus.failed) :
    (finalize_job_processing jobId rt now db).final_status = JobStatus.completed := by
  have hcnt : db.countP (fun r => r.batch_job_id == jobId && r.status == RequestStatus.failed)
      = count_requests_for_job jobId db := by
    unfold count_requests_for_job get_requests_for_job
    rw [← List.countP_eq_length_filter]
    rw [List.countP_eq_length_filter, List.countP_eq_length_filter]
    congr 1
    apply List.filter_congr
    intro r hr
    by_cases ho : r.batch_job_id = jobId
    · simp [ho, h r hr ho]
    · simp [ho]
  have hcond : ((get_status_counts_for_job jobId db).1 +
        (get_status_counts_for_job jobId db).2 ≥ count_requests_for_job jobId db ∧
      0 < count_requests_for_job jobId db) ∨ count_requests_for_job jobId db = 0 := by
    rcases Nat.eq_zero_or_pos (count_requests_for_job jobId db) with hz | hp
    · exact Or.inr hz
    · refine Or.inl ⟨?_, hp⟩
      have h2 : (get_status_counts_for_job jobId db).2 = count_requests_for_job jobId db := by
        simpa [get_status_counts_for_job] using hcnt
      rw [h2]
      exact Nat.le_add_left _ _
  unfold finalize_job_processing
  dsimp only
  rw [finalize_all_noop_of_all_failed jobId now db h, reconcile_total, if_pos]
  exact hcond

/-! ## C2 -/

/-- Counterexample to C2 as stated: one request, `max_retries = 2`, every
upstream call rate-limited.  The request does end `failed` with
`retry_count = 2 = max_attempts`, but the unconditional finalize then marks
the job `completed`, not `failed` as the claim asserts. -/
theorem scenarioB_job_completed_not_failed :
    ((execute_request (fun _ => ApiOutcome.apiError) (fun _ => true) (fun _ => true)
        (fun _ => "s") (fun _ => "e") RETRY_BACKOFF_BASE 1 2
        (load_requests_for_job 1 0
          [⟨1, 1, 0, [], RequestStatus.pending, 0, none, 0, 0, 0, none, none⟩])).cache.requests.map
        (fun kv => (kv.2.status, kv.2.retry_count))
      = [(RequestStatus.failed, 2)]) ∧
    (finalize_job_processing 1 1 "n"
        (flush_updates
          (execute_request (fun _ => ApiOutcome.apiError) (fun _ => true) (fun _ => true)
            (fun _ => "s") (fun _ => "e") RETRY_BACKOFF_BASE 1 2
            (load_requests_for_job 1 0
              [⟨1, 1, 0, [], RequestStatus.pending, 0, none, 0, 0, 0, none, none⟩])).cache
          true 0 ⟨true, true, true⟩
          [⟨1, 1, 0, [], RequestStatus.pending, 0, none, 0, 0, 0, none, none⟩]).db).final_status
      = JobStatus.completed ∧
    (finalize_job_processing 1 1 "n"
        (flush_updates
          (execute_request (fun _ => ApiOutcome.apiError) (fun _ => true) (fun _ => true)
            (fun _ => "s") (fun _ => "e") RETRY_BACKOFF_BASE 1 2
            (load_requests_for_job 1 0
              [⟨1, 1, 0, [], RequestStatus.pending, 0, none, 0, 0, 0, none, none⟩])).cache
          true 0 ⟨true, true, true⟩
          [⟨1, 1, 0, [], RequestStatus.pending, 0, none, 0, 0, 0, none, none⟩]).db).final_status
      ≠ JobStatus.failed := by
  refine ⟨by decide, by decide, by decide⟩

/-- C2 (amended): in a job where every upstream call is rate-limited on every
attempt, each request ends `failed` with `retry_count = max_attempts`
(`max(1, max_retries)`), and — every stored request of the job then being
`failed` — the unconditional finalize marks the job `completed`, not `failed`. -/
theorem all_rate_limited_requests_fail_and_job_completed
    (outcomes : Nat → ApiOutcome) (startT endT : Nat → String)
    (base rid max_retries : Nat) (cache : RequestCache) (r0 : BatchRequest)
    (hall : ∀ k, outcomes k = ApiOutcome.apiError)
    (hr : lookupReq cache.requests rid = some r0)
    (jobId reported_total : Nat) (now : String) (db : List BatchRequest)
    (hdb : ∀ r ∈ db, r.batch_job_id = jobId → r.status = RequestStatus.failed) :
    (∃ r1, lookupReq (execute_request outcomes (fun _ => true) (fun _ => true) startT endT
          base rid max_retries cache).cache.requests rid = some r1 ∧
      r1.status = RequestStatus.failed ∧ r1.retry_count = max 1 max_retries) ∧
    (finalize_job_processing jobId reported_total now db).final_status =
      JobStatus.completed := by
  refine ⟨?_, finalize_job_all_failed_completed jobId reported_total now db hdb⟩
  unfold execute_request
  exact (execLoop_all_apiError outcomes startT endT base rid (max 1 max_retries) hall
    (max 1 max_retries) 0 cache r0 (by omega) (Nat.le_max_left 1 max_retries) hr).1

/-- Witness for the amended C2 at a concrete cache and table. -/
theorem all_rate_limited_requests_fail_and_job_completed_witness :
    (∃ r1, lookupReq (execute_request (fun _ => ApiOutcome.apiError) (fun _ => true)
          (fun _ => true) (fun _ => "s") (fun _ => "e") 2 1 3
          ⟨[(1, ⟨1, 1, 0, [], RequestStatus.pending, 0, none, 0, 0, 0, none, none⟩)],
            [], 100, 0, 5⟩).cache.requests 1 = some r1 ∧
      r1.status = RequestStatus.failed ∧ r1.retry_count = max 1 3) ∧
    (finalize_job_processing 1 1 "n"
        [⟨1, 1, 0, [], RequestStatus.failed, 3, none, 0, 0, 0, none, none⟩]).final_status =
      JobStatus.completed :=
  all_rate_limited_requests_fail_and_job_completed (fun _ => ApiOutcome.apiError)
    (fun _ => "s") (fun _ => "e") 2 1 3
    ⟨[(1, ⟨1, 1, 0, [], RequestStatus.pending, 0, none, 0, 0, 0, none, none⟩)], [], 100, 0, 5⟩
    ⟨1, 1, 0, [], RequestStatus.pending, 0, none, 0, 0, 0, none, none⟩
    (fun _ => rfl) rfl 1 1 "n"
    [⟨1, 1, 0, [], RequestStatus.failed, 3, none, 0, 0, 0, none, none⟩] (by decide)

/-! ## C9 -/

/-- Characterization of a run whose first `k` upstream calls raise API errors
and whose call at attempt `k` raises an unexpected exception: the request is
failed immediately with retry count `k + 1` and only the `k` earlier backoff
sleeps were taken. -/
theorem execLoop_prefix_otherError (outcomes : Nat → ApiOutcome) (startT endT : Nat → String)
    (base rid maxA : Nat) :
    ∀ (k attempt remaining : Nat) (cache : RequestCache) (r0 : BatchRequest),
      attempt + remaining = maxA →
      (∀ j, j < k → outcomes (attempt + j) = ApiOutcome.apiError) →
      outcomes (attempt + k) = ApiOutcome.otherError →
      attempt + k < maxA →
      lookupReq cache.requests rid = some r0 →
      (∃ r1, lookupReq (execLoop outcomes (fun _ => true) (fun _ => true) startT endT base
          rid maxA remaining attempt cache).cache.requests rid = some r1 ∧
        r1.status = RequestStatus.failed ∧ r1.retry_count = attempt + k + 1) ∧
      (execLoop outcomes (fun _ => true) (fun _ => true) startT endT base rid maxA
          remaining attempt cache).sleeps =
        (List.range k).map (fun j => backoff_sleep base (attempt + j)) := by
  intro k
  induction k with
  | zero =>
    intro attempt remaining cache r0 h1 hpre hk hbound h3
    obtain ⟨rem, hrem⟩ : ∃ rem, remaining = rem + 1 := ⟨remaining - 1, by omega⟩
    subst hrem
    have hc1 := lookup_after_mark_attempt cache rid
      (if attempt == 0 then RequestStatus.processing else RequestStatus.retrying)
      (some (startT attempt)) r0 h3
    have hc2 := lookup_after_mark_failed _ rid (endT attempt) (attempt + 1)
      RequestStatus.failed _ hc1
    rw [show attempt + 0 = attempt from rfl] at hk
    simp only [execLoop, hk]
    simp only [if_neg (by simp : ¬((fun (_ : Nat) => true) attempt = false))]
    exact ⟨⟨_, hc2, rfl, rfl⟩, rfl⟩
  | succ k ih =>
    intro attempt remaining cache r0 h1 hpre hk hbound h3
    obtain ⟨rem, hrem⟩ : ∃ rem, remaining = rem + 1 := ⟨remaining - 1, by omega⟩
    subst hrem
    have hapi : outcomes attempt = ApiOutcome.apiError := by
      simpa using hpre 0 (Nat.succ_pos k)
    have hlt : attempt < maxA - 1 := by omega
    have hc1 := lookup_after_mark_attempt cache rid
      (if attempt == 0 then RequestStatus.processing else RequestStatus.retrying)
      (some (startT attempt)) r0 h3
    have hc2 := lookup_after_mark_failed _ rid (endT attempt) (attempt + 1)
      RequestStatus.retrying _ hc1
    have hrec := ih (attempt + 1) rem _ _ (by omega)
      (fun j hj => by
        have := hpre (j + 1) (by omega)
        rwa [show attempt + (j + 1) = attempt + 1 + j by omega] at this)
      (by
        rwa [show attempt + 1 + k = attempt + (k + 1) by omega])
      (by omega) hc2
    simp only [execLoop, hapi]
    simp only [if_neg (by simp : ¬((fun (_ : Nat) => true) attempt = false))]
    rw [if_pos hlt]
    refine ⟨?_, ?_⟩
    · obtain ⟨r1, ha, hb, hc⟩ := hrec.1
      exact ⟨r1, ha, hb, by omega⟩
    · rw [hrec.2, List.range_succ_eq_map]
      simp only [List.map_cons, List.map_map]
      refine congrArg₂ _ (by simp) ?_
      apply List.map_congr_left
      intro a _
      simp only [Function.comp]
      exact congrArg _ (by omega)

/-- C9: an exception that is neither an API error nor a timeout at attempt
index `k` marks the request `failed` immediately with retry count `k + 1` and
stops execution: only the `k` backoff sleeps of the earlier attempts were
taken, no matter how many attempts remained in the budget. -/
theorem unexpected_error_fails_immediately (outcomes : Nat → ApiOutcome)
    (startT endT : Nat → String) (base rid max_retries k : Nat) (cache : RequestCache)
    (r0 : BatchRequest)
    (hpre : ∀ j, j < k → outcomes j = ApiOutcome.apiError)
    (hk : outcomes k = ApiOutcome.otherError)
    (hbound : k < max 1 max_retries)
    (hr : lookupReq cache.requests rid = some r0) :
    (∃ r1, lookupReq (execute_request outcomes (fun _ => true) (fun _ => true) startT endT
        base rid max_retries cache).cache.requests rid = some r1 ∧
      r1.status = RequestStatus.failed ∧ r1.retry_count = k + 1) ∧
    (execute_request outcomes (fun _ => true) (fun _ => true) startT endT base rid
        max_retries cache).sleeps = (List.range k).map (backoff_sleep base) := by
  unfold execute_request
  obtain ⟨⟨r1, ha, hb, hc⟩, hsl⟩ := execLoop_prefix_otherError outcomes startT endT base rid
    (max 1 max_retries) k 0 (max 1 max_retries) cache r0 (by omega)
    (fun j hj => by simpa using hpre j hj) (by simpa using hk) (by omega) hr
  refine ⟨⟨r1, ha, hb, by omega⟩, ?_⟩
  rw [hsl]
  apply List.map_congr_left
  intro a _
  simp

/-- Witness for C9: the first attempt is rate-limited, the second raises an
unexpected exception; with a budget of three attempts the request is failed
at once with retry count 2 and a single backoff sleep was taken. -/
theorem unexpected_error_fails_immediately_witness :
    (∃ r1, lookupReq (execute_request
        (fun j => if j = 0 then ApiOutcome.apiError else ApiOutcome.otherError)
        (fun _ => true) (fun _ => true) (fun _ => "s") (fun _ => "e") 2 1 3
        ⟨[(1, ⟨1, 1, 0, [], RequestStatus.pending, 0, none, 0, 0, 0, none, none⟩)],
          [], 100, 0, 5⟩).cache.requests 1 = some r1 ∧
      r1.status = RequestStatus.failed ∧ r1.retry_count = 1 + 1) ∧
    (execute_request (fun j => if j = 0 then ApiOutcome.apiError else ApiOutcome.otherError)
        (fun _ => true) (fun _ => true) (fun _ => "s") (fun _ => "e") 2 1 3
        ⟨[(1, ⟨1, 1, 0, [], RequestStatus.pending, 0, none, 0, 0, 0, none, none⟩)],
          [], 100, 0, 5⟩).sleeps = (List.range 1).map (backoff_sleep 2) :=
  unexpected_error_fails_immediately
    (fun j => if j = 0 then ApiOutcome.apiError else ApiOutcome.otherError)
    (fun _ => "s") (fun _ => "e") 2 1 3 1
    ⟨[(1, ⟨1, 1, 0, [], RequestStatus.pending, 0, none, 0, 0, 0, none, none⟩)], [], 100, 0, 5⟩
    ⟨1, 1, 0, [], RequestStatus.pending, 0, none, 0, 0, 0, none, none⟩
    (fun j hj => by
      have : j = 0 := by omega
      subst this
      rfl)
    rfl (by decide) rfl

/-! ## C7 -/

/-- C7: in a run whose upstream calls all fail with API errors, the backoff
sleep taken after attempt `k` (that is, before attempt `k + 1`) equals
`base ^ k`, and for `base > 1` the sleep before attempt `k + 2` is strictly
greater than the sleep before attempt `k + 1`. -/
theorem backoff_sleeps_exponential_and_strict_mono (outcomes : Nat → ApiOutcome)
    (startT endT : Nat → String) (base rid max_retries k : Nat) (cache : RequestCache)
    (r0 : BatchRequest)
    (hall : ∀ j, outcomes j = ApiOutcome.apiError)
    (hr : lookupReq cache.requests rid = some r0)
    (hk : k < max 1 max_retries - 1) (hbase : 1 < base) :
    (execute_request outcomes (fun _ => true) (fun _ => true) startT endT base rid
        max_retries cache).sleeps[k]? = some (backoff_sleep base k) ∧
    backoff_sleep base k < backoff_sleep base (k + 1) := by
  constructor
  · unfold execute_request
    rw [(execLoop_all_apiError outcomes startT endT base rid (max 1 max_retries) hall
        (max 1 max_retries) 0 cache r0 (by omega) (Nat.le_max_left 1 max_retries) hr).2]
    rw [List.getElem?_map, List.getElem?_range hk]
    simp
  · simpa [backoff_sleep] using Nat.pow_lt_pow_succ hbase

/-- Witness for C7 at a concrete run with base 2 and three attempts. -/
theorem backoff_sleeps_exponential_and_strict_mono_witness :
    (execute_request (fun _ => ApiOutcome.apiError) (fun _ => true) (fun _ => true)
        (fun _ => "s") (fun _ => "e") 2 1 3
        ⟨[(1, ⟨1, 1, 0, [], RequestStatus.pending, 0, none, 0, 0, 0, none, none⟩)],
          [], 100, 0, 5⟩).sleeps[0]? = some (backoff_sleep 2 0) ∧
    backoff_sleep 2 0 < backoff_sleep 2 (0 + 1) :=
  backoff_sleeps_exponential_and_strict_mono (fun _ => ApiOutcome.apiError)
    (fun _ => "s") (fun _ => "e") 2 1 3 0
    ⟨[(1, ⟨1, 1, 0, [], RequestStatus.pending, 0, none, 0, 0, 0, none, none⟩)], [], 100, 0, 5⟩
    ⟨1, 1, 0, [], RequestStatus.pending, 0, none, 0, 0, 0, none, none⟩
    (fun _ => rfl) rfl (by decide) (by decide)

/-! ## C4 -/

theorem retryInv_update_request_status (c : RequestCache) (rid : Nat) (st : RequestStatus)
    (t : Option String) (maxA : Nat)
    (h : ∀ i m, lookupReq c.requests i = some m → m.retry_count ≤ maxA) :
    ∀ i m, lookupReq (update_request_status c rid st t).requests i = some m →
      m.retry_count ≤ maxA := by
  intro i m hm
  rw [lookup_update_request_status] at hm
  by_cases hij : rid = i
  · rw [if_pos hij] at hm
    obtain ⟨r, hl, hfr⟩ := Option.map_eq_some'.mp hm
    have := h i r hl
    rw [← hfr]
    exact this
  · rw [if_neg hij] at hm
    exact h i m hm

theorem retryInv_update_request_as_success (c : RequestCache) (rid : Nat) (body : String)
    (p ct : Nat) (et : String) (maxA : Nat)
    (h : ∀ i m, lookupReq c.requests i = some m → m.retry_count ≤ maxA) :
    ∀ i m, lookupReq (update_request_as_success c rid body p ct et).requests i = some m →
      m.retry_count ≤ maxA := by
  intro i m hm
  rw [lookup_update_request_as_success] at hm
  by_cases hij : rid = i
  · rw [if_pos hij] at hm
    obtain ⟨r, hl, hfr⟩ := Option.map_eq_some'.mp hm
    have := h i r hl
    rw [← hfr]
    exact this
  · rw [if_neg hij] at hm
    exact h i m hm

theorem retryInv_update_request_as_failed (c : RequestCache) (rid : Nat) (et : String)
    (rc : Nat) (fs : RequestStatus) (maxA : Nat) (hrc : rc ≤ maxA)
    (h : ∀ i m, lookupReq c.requests i = some m → m.retry_count ≤ maxA) :
    ∀ i m, lookupReq (update_request_as_failed c rid et rc fs).requests i = some m →
      m.retry_count ≤ maxA := by
  intro i m hm
  rw [lookup_update_request_as_failed] at hm
  by_cases hij : rid = i
  · rw [if_pos hij] at hm
    obtain ⟨r, hl, hfr⟩ := Option.map_eq_some'.mp hm
    rw [← hfr]
    exact hrc
  · rw [if_neg hij] at hm
    exact h i m hm

/-- The executor loop preserves the bound `retry_count ≤ maxAttempts` on every
cached record, for arbitrary upstream outcomes and job-existence polls: every
retry count it writes is `attempt + 1 ≤ maxAttempts`. -/
theorem execLoop_retry_le (outcomes : Nat → ApiOutcome) (existsAt existsRetry : Nat → Bool)
    (startT endT : Nat → String) (base rid maxA : Nat) :
    ∀ (remaining attempt : Nat) (cache : RequestCache),
      attempt + remaining ≤ maxA →
      (∀ i m, lookupReq cache.requests i = some m → m.retry_count ≤ maxA) →
      ∀ i m, lookupReq (execLoop outcomes existsAt existsRetry startT endT base rid maxA
          remaining attempt cache).cache.requests i = some m → m.retry_count ≤ maxA := by
  intro remaining
  induction remaining with
  | zero =>
    intro attempt cache hbound hinv
    simpa only [execLoop] using hinv
  | succ rem ih =>
    intro attempt cache hbound hinv
    simp only [execLoop]
    by_cases he : existsAt attempt = false
    · simp only [he, if_true]
      exact hinv
    · simp only [he, if_false]
      have hinv1 := retryInv_update_request_status cache rid
        (if attempt == 0 then RequestStatus.processing else RequestStatus.retrying)
        (some (startT attempt)) maxA hinv
      have hrc1 : attempt + 1 ≤ maxA := by omega
      cases houtc : outcomes attempt with
      | success body p ct =>
        exact retryInv_update_request_as_success _ rid body p ct (endT attempt) maxA hinv1
      | apiError =>
        by_cases hlt : attempt < maxA - 1
        · rw [if_pos hlt]
          by_cases her : existsRetry attempt = false
          · simp only [her, if_true]
            exact hinv1
          · simp only [her, if_false]
            exact ih (attempt + 1) _ (by omega)
              (retryInv_update_request_as_failed _ rid (endT attempt) (attempt + 1)
                RequestStatus.retrying maxA hrc1 hinv1)
        · rw [if_neg hlt]
          exact retryInv_update_request_as_failed _ rid (endT attempt) (attempt + 1)
            RequestStatus.failed maxA hrc1 hinv1
      | otherError =>
        exact retryInv_update_request_as_failed _ rid (endT attempt) (attempt + 1)
          RequestStatus.failed maxA hrc1 hinv1

/-- C4: with an attempt budget of at least 1, `retry_count` never exceeds
`max_attempts = max_retries`: the executor (whatever the upstream outcomes
and polls) keeps every cached record at `retry_count ≤ max_retries`, and the
recovery reset of `processing`/`retrying` requests never increases any
stored `retry_count` above the bound either. -/
theorem retry_count_le_max_attempts (outcomes : Nat → ApiOutcome)
    (existsAt existsRetry : Nat → Bool) (startT endT : Nat → String)
    (base rid max_retries : Nat) (cache : RequestCache)
    (h1 : 1 ≤ max_retries)
    (hinv : ∀ i m, lookupReq cache.requests i = some m → m.retry_count ≤ max_retries) :
    (∀ i m, lookupReq (execute_request outcomes existsAt existsRetry startT endT base rid
        max_retries cache).cache.requests i = some m → m.retry_count ≤ max_retries) ∧
    (∀ (jobId : Nat) (db : List BatchRequest),
      (∀ r ∈ db, r.retry_count ≤ max_retries) →
      ∀ r ∈ reset_processing_requests_for_job jobId db, r.retry_count ≤ max_retries) := by
  constructor
  · unfold execute_request
    have hmax : max 1 max_retries = max_retries := Nat.max_eq_right h1
    rw [hmax]
    exact execLoop_retry_le outcomes existsAt existsRetry startT endT base rid max_retries
      max_retries 0 cache (by omega) hinv
  · intro jobId db hdb r hr
    unfold reset_processing_requests_for_job at hr
    obtain ⟨r0, hr0, hmap⟩ := List.mem_map.mp hr
    have := hdb r0 hr0
    unfold resetProcessingRow at hmap
    split at hmap <;> rw [← hmap] <;> simpa using this

/-- Witness for C4 at a concrete run: unexpected error on the first attempt,
budget 2, a cache holding one fresh record, and a one-row table. -/
theorem retry_count_le_max_attempts_witness :
    (∀ i m, lookupReq (execute_request (fun _ => ApiOutcome.otherError) (fun _ => true)
        (fun _ => true) (fun _ => "s") (fun _ => "e") 2 1 2
        ⟨[(1, ⟨1, 1, 0, [], RequestStatus.pending, 0, none, 0, 0, 0, none, none⟩)],
          [], 100, 0, 5⟩).cache.requests i = some m → m.retry_count ≤ 2) ∧
    (∀ (jobId : Nat) (db : List BatchRequest),
      (∀ r ∈ db, r.retry_count ≤ 2) →
      ∀ r ∈ reset_processing_requests_for_job jobId db, r.retry_count ≤ 2) :=
  retry_count_le_max_attempts (fun _ => ApiOutcome.otherError) (fun _ => true)
    (fun _ => true) (fun _ => "s") (fun _ => "e") 2 1 2
    ⟨[(1, ⟨1, 1, 0, [], RequestStatus.pending, 0, none, 0, 0, 0, none, none⟩)], [], 100, 0, 5⟩
    (by decide)
    (by
      intro i m hm
      simp only [lookupReq] at hm
      split at hm
      · cases hm
        decide
      · cases hm)

/-! ## C5 -/

/-- A flush that raises leaves the cache exactly as it was: the cleared dirty
ids are re-added (to the emptied set) and `last_flush_time` is untouched. -/
theorem flush_fail_cache (c : RequestCache) (t : Nat) (fault : FlushFault)
    (db : List BatchRequest) (h : (flush_updates c true t fault db).ok = false) :
    (flush_updates c true t fault db).cache = c := by
  unfold flush_updates at h ⊢
  by_cases h0 : c.dirty_request_ids = []
  · simp [h0] at h
  · rw [if_neg h0] at h ⊢
    rw [if_pos (by simp)] at h ⊢
    dsimp only at h ⊢
    split_ifs at h ⊢ <;> rfl

/-- A forced flush with no fault injected takes the full success path. -/
theorem flush_success_result (c : RequestCache) (t : Nat) (db : List BatchRequest)
    (h0 : c.dirty_request_ids ≠ []) :
    flush_updates c true t ⟨true, true, true⟩ db =
      ⟨{ c with dirty_request_ids := [], last_flush_time := t },
        bulk_update_request_status (processingBatch c)
          (bulk_update_request_failure (failedBatch c)
            (bulk_update_request_success (successBatch c) db)),
        (successBatch c).map (fun r => r.id) ++ (failedBatch c).map (fun r => r.id)
          ++ (processingBatch c).map (fun r => r.id),
        true⟩ := by
  unfold flush_updates
  rw [if_neg h0, if_pos (by simp)]
  dsimp only
  rw [if_neg (by simp), if_neg (by simp), if_neg (by simp)]

/-- C5: when a flush's bulk write raises, every dirty id is re-added to the
dirty set and the last-flush timestamp is not advanced; a subsequent forced
flush that succeeds then writes every one of those ids in its batches, so no
update is lost. -/
theorem flush_failure_redirties_and_next_flush_retries (c : RequestCache)
    (db : List BatchRequest) (t1 t2 : Nat) (fault : FlushFault)
    (hids : ∀ i ∈ c.dirty_request_ids, ∃ m, lookupReq c.requests i = some m ∧ m.id = i ∧
      m.status ≠ RequestStatus.pending)
    (hfail : (flush_updates c true t1 fault db).ok = false) :
    (flush_updates c true t1 fault db).cache.dirty_request_ids = c.dirty_request_ids ∧
    (flush_updates c true t1 fault db).cache.last_flush_time = c.last_flush_time ∧
    (flush_updates (flush_updates c true t1 fault db).cache true t2 ⟨true, true, true⟩
        (flush_updates c true t1 fault db).db).ok = true ∧
    ∀ i ∈ c.dirty_request_ids,
      i ∈ (flush_updates (flush_updates c true t1 fault db).cache true t2 ⟨true, true, true⟩
          (flush_updates c true t1 fault db).db).flushed_ids := by
  have hc := flush_fail_cache c t1 fault db hfail
  have h0 : c.dirty_request_ids ≠ [] := by
    intro h0
    unfold flush_updates at hfail
    rw [if_pos h0] at hfail
    exact absurd hfail (by simp)
  refine ⟨by rw [hc], by rw [hc], ?_, ?_⟩
  · rw [hc, flush_success_result c t2 _ h0]
  · intro i hi
    rw [hc, flush_success_result c t2 _ h0]
    obtain ⟨m, hm, hmid, hmst⟩ := hids i hi
    have hsync : m ∈ requestsToSync c := List.mem_filterMap.mpr ⟨i, hi, hm⟩
    dsimp only
    rw [List.mem_append, List.mem_append, ← hmid]
    cases hst : m.status with
    | pending => exact absurd hst hmst
    | success =>
      exact Or.inl (Or.inl (List.mem_map_of_mem _
        (List.mem_filter.mpr ⟨hsync, by simp [successBatch, hst]⟩)))
    | failed =>
      exact Or.inl (Or.inr (List.mem_map_of_mem _
        (List.mem_filter.mpr ⟨hsync, by simp [failedBatch, hst]⟩)))
    | processing =>
      exact Or.inr (List.mem_map_of_mem _
        (List.mem_filter.mpr ⟨hsync, by simp [processingBatch, hst]⟩))
    | retrying =>
      exact Or.inr (List.mem_map_of_mem _
        (List.mem_filter.mpr ⟨hsync, by simp [processingBatch, hst]⟩))

/-- Witness for C5: one dirty `failed` record, first flush faulted on the
failure batch, second flush clean. -/
theorem flush_failure_redirties_witness :
    (flush_updates
        ⟨[(1, ⟨1, 1, 0, [], RequestStatus.failed, 1, none, 0, 0, 0, none, some "e"⟩)],
          [1], 100, 0, 5⟩ true 0 ⟨true, false, true⟩
        [⟨1, 1, 0, [], RequestStatus.pending, 0, none, 0, 0, 0, none, none⟩]).cache.dirty_request_ids
      = [1] ∧
    (flush_updates
        ⟨[(1, ⟨1, 1, 0, [], RequestStatus.failed, 1, none, 0, 0, 0, none, some "e"⟩)],
          [1], 100, 0, 5⟩ true 0 ⟨true, false, true⟩
        [⟨1, 1, 0, [], RequestStatus.pending, 0, none, 0, 0, 0, none, none⟩]).cache.last_flush_time
      = 0 ∧
    (flush_updates (flush_updates
        ⟨[(1, ⟨1, 1, 0, [], RequestStatus.failed, 1, none, 0, 0, 0, none, some "e"⟩)],
          [1], 100, 0, 5⟩ true 0 ⟨true, false, true⟩
        [⟨1, 1, 0, [], RequestStatus.pending, 0, none, 0, 0, 0, none, none⟩]).cache true 3
        ⟨true, true, true⟩
        (flush_updates
          ⟨[(1, ⟨1, 1, 0, [], RequestStatus.failed, 1, none, 0, 0, 0, none, some "e"⟩)],
            [1], 100, 0, 5⟩ true 0 ⟨true, false, true⟩
          [⟨1, 1, 0, [], RequestStatus.pending, 0, none, 0, 0, 0, none, none⟩]).db).ok = true ∧
    ∀ i ∈ ([1] : List Nat),
      i ∈ (flush_updates (flush_updates
          ⟨[(1, ⟨1, 1, 0, [], RequestStatus.failed, 1, none, 0, 0, 0, none, some "e"⟩)],
            [1], 100, 0, 5⟩ true 0 ⟨true, false, true⟩
          [⟨1, 1, 0, [], RequestStatus.pending, 0, none, 0, 0, 0, none, none⟩]).cache true 3
          ⟨true, true, true⟩
          (flush_updates
            ⟨[(1, ⟨1, 1, 0, [], RequestStatus.failed, 1, none, 0, 0, 0, none, some "e"⟩)],
              [1], 100, 0, 5⟩ true 0 ⟨true, false, true⟩
            [⟨1, 1, 0, [], RequestStatus.pending, 0, none, 0, 0, 0, none, none⟩]).db).flushed_ids :=
  flush_failure_redirties_and_next_flush_retries
    ⟨[(1, ⟨1, 1, 0, [], RequestStatus.failed, 1, none, 0, 0, 0, none, some "e"⟩)],
      [1], 100, 0, 5⟩
    [⟨1, 1, 0, [], RequestStatus.pending, 0, none, 0, 0, 0, none, none⟩] 0 3
    ⟨true, false, true⟩
    (by
      intro i hi
      have : i = 1 := by simpa using hi
      subst this
      exact ⟨_, rfl, rfl, by decide⟩)
    (by decide)

/-! ## C6 -/

/-- Counterexample to C6 as stated: a record mutated to `retrying` with
`retry_count = 1` is flushed through the processing/retrying batch, which
writes only status and start time — the stored row keeps `retry_count = 0`,
so the round-trip does not agree on every mutated field. -/
theorem cache_round_trip_retry_count_lost :
    ((lookupReq (update_request_as_failed
        (load_requests_for_job 1 0
          [⟨1, 1, 0, [], RequestStatus.pending, 0, none, 0, 0, 0, none, none⟩])
        1 "t1" 1 RequestStatus.retrying).requests 1).map (fun m => m.retry_count)
      = some 1) ∧
    ((flush_updates (update_request_as_failed
        (load_requests_for_job 1 0
          [⟨1, 1, 0, [], RequestStatus.pending, 0, none, 0, 0, 0, none, none⟩])
        1 "t1" 1 RequestStatus.retrying) true 1 ⟨true, true, true⟩
        [⟨1, 1, 0, [], RequestStatus.pending, 0, none, 0, 0, 0, none, none⟩]).ok = true) ∧
    ((flush_updates (update_request_as_failed
        (load_requests_for_job 1 0
          [⟨1, 1, 0, [], RequestStatus.pending, 0, none, 0, 0, 0, none, none⟩])
        1 "t1" 1 RequestStatus.retrying) true 1 ⟨true, true, true⟩
        [⟨1, 1, 0, [], RequestStatus.pending, 0, none, 0, 0, 0, none, none⟩]).db.map
        (fun s => s.retry_count) = [0]) := by
  refine ⟨by decide, by decide, by decide⟩

/-- C6 (amended): after a successful forced flush of a mutated record, the
stored row agrees with the in-memory record exactly on the fields written by
the batch of the record's status: a `success` record round-trips status,
response body, token counts and both timestamps; a `failed` record
round-trips status, retry count and end time; a `processing`/`retrying`
record round-trips status and start time; every other column keeps the value
previously stored in the row. -/
theorem flush_round_trip_batch_fields (c : RequestCache) (db : List BatchRequest)
    (i t : Nat) (m : BatchRequest)
    (hd : c.dirty_request_ids = [i]) (hm : lookupReq c.requests i = some m)
    (hid : m.id = i) :
    (flush_updates c true t ⟨true, true, true⟩ db).ok = true ∧
    ∀ r ∈ db, r.id = i →
      (m.status = RequestStatus.success →
        { r with
          status := RequestStatus.success, response_body := m.response_body,
          prompt_tokens := m.prompt_tokens, completion_tokens := m.completion_tokens,
          total_tokens := m.prompt_tokens + m.completion_tokens,
          start_time := m.start_time, end_time := m.end_time }
          ∈ (flush_updates c true t ⟨true, true, true⟩ db).db) ∧
      (m.status = RequestStatus.failed →
        { r with
          status := m.status, retry_count := m.retry_count,
          end_time := m.end_time }
          ∈ (flush_updates c true t ⟨true, true, true⟩ db).db) ∧
      ((m.status = RequestStatus.processing ∨ m.status = RequestStatus.retrying) →
        { r with status := m.status, start_time := m.start_time }
          ∈ (flush_updates c true t ⟨true, true, true⟩ db).db) := by
  have h0 : c.dirty_request_ids ≠ [] := by simp [hd]
  have hsync : requestsToSync c = [m] := by
    simp [requestsToSync, hd, hm]
  rw [flush_success_result c t db h0]
  refine ⟨rfl, ?_⟩
  intro r hr hri
  have hbeq : (r.id == m.id) = true := by simp [hri, hid]
  refine ⟨fun hst => ?_, fun hst => ?_, fun hst => ?_⟩
  · have hsB : successBatch c = [m] := by simp [successBatch, hsync, hst]
    have hfB : failedBatch c = [] := by simp [failedBatch, hsync, hst]
    have hpB : processingBatch c = [] := by simp [processingBatch, hsync, hst]
    dsimp only
    rw [hsB, hfB, hpB]
    show _ ∈ List.map _ db
    refine List.mem_map.mpr ⟨r, hr, ?_⟩
    rw [if_pos hbeq]
    rfl
  · have hsB : successBatch c = [] := by simp [successBatch, hsync, hst]
    have hfB : failedBatch c = [m] := by simp [failedBatch, hsync, hst]
    have hpB : processingBatch c = [] := by simp [processingBatch, hsync, hst]
    dsimp only
    rw [hsB, hfB, hpB]
    show _ ∈ List.map _ db
    refine List.mem_map.mpr ⟨r, hr, ?_⟩
    rw [if_pos hbeq]
    rfl
  · have hsB : successBatch c = [] := by
      cases hst with
      | inl h => simp [successBatch, hsync, h]
      | inr h => simp [successBatch, hsync, h]
    have hfB : failedBatch c = [] := by
      cases hst with
      | inl h => simp [failedBatch, hsync, h]
      | inr h => simp [failedBatch, hsync, h]
    have hpB : processingBatch c = [m] := by
      cases hst with
      | inl h => simp [processingBatch, hsync, h]
      | inr h => simp [processingBatch, hsync, h]
    dsimp only
    rw [hsB, hfB, hpB]
    show _ ∈ List.map _ db
    refine List.mem_map.mpr ⟨r, hr, ?_⟩
    rw [if_pos hbeq]
    rfl

/-- Witness for the amended C6: a `retrying` record round-trips its status
and start time through the processing batch. -/
theorem flush_round_trip_batch_fields_witness :
    (flush_updates
        ⟨[(1, ⟨1, 1, 0, [], RequestStatus.retrying, 1, none, 0, 0, 0, some "s", some "e"⟩)],
          [1], 100, 0, 5⟩ true 2 ⟨true, true, true⟩
        [⟨1, 1, 0, [], RequestStatus.pending, 0, none, 0, 0, 0, none, none⟩]).ok = true ∧
    ∀ r ∈ [(⟨1, 1, 0, [], RequestStatus.pending, 0, none, 0, 0, 0, none, none⟩ : BatchRequest)],
      r.id = 1 →
      ((⟨1, 1, 0, [], RequestStatus.retrying, 1, none, 0, 0, 0, some "s", some "e"⟩ :
          BatchRequest).status = RequestStatus.success →
        { r with
          status := RequestStatus.success, response_body := none,
          prompt_tokens := 0, completion_tokens := 0, total_tokens := 0 + 0,
          start_time := some "s", end_time := some "e" }
          ∈ (flush_updates
            ⟨[(1, ⟨1, 1, 0, [], RequestStatus.retrying, 1, none, 0, 0, 0, some "s", some "e"⟩)],
              [1], 100, 0, 5⟩ true 2 ⟨true, true, true⟩
            [⟨1, 1, 0, [], RequestStatus.pending, 0, none, 0, 0, 0, none, none⟩]).db) ∧
      ((⟨1, 1, 0, [], RequestStatus.retrying, 1, none, 0, 0, 0, some "s", some "e"⟩ :
          BatchRequest).status = RequestStatus.failed →
        { r with
          status := RequestStatus.retrying, retry_count := 1, end_time := some "e" }
          ∈ (flush_updates
            ⟨[(1, ⟨1, 1, 0, [], RequestStatus.retrying, 1, none, 0, 0, 0, some "s", some "e"⟩)],
              [1], 100, 0, 5⟩ true 2 ⟨true, true, true⟩
            [⟨1, 1, 0, [], RequestStatus.pending, 0, none, 0, 0, 0, none, none⟩]).db) ∧
      (((⟨1, 1, 0, [], RequestStatus.retrying, 1, none, 0, 0, 0, some "s", some "e"⟩ :
          BatchRequest).status = RequestStatus.processing ∨
        (⟨1, 1, 0, [], RequestStatus.retrying, 1, none, 0, 0, 0, some "s", some "e"⟩ :
          BatchRequest).status = RequestStatus.retrying) →
        { r with status := RequestStatus.retrying, start_time := some "s" }
          ∈ (flush_updates
            ⟨[(1, ⟨1, 1, 0, [], RequestStatus.retrying, 1, none, 0, 0, 0, some "s", some "e"⟩)],
              [1], 100, 0, 5⟩ true 2 ⟨true, true, true⟩
            [⟨1, 1, 0, [], RequestStatus.pending, 0, none, 0, 0, 0, none, none⟩]).db) :=
  flush_round_trip_batch_fields
    ⟨[(1, ⟨1, 1, 0, [], RequestStatus.retrying, 1, none, 0, 0, 0, some "s", some "e"⟩)],
      [1], 100, 0, 5⟩
    [⟨1, 1, 0, [], RequestStatus.pending, 0, none, 0, 0, 0, none, none⟩] 1 2
    ⟨1, 1, 0, [], RequestStatus.retrying, 1, none, 0, 0, 0, some "s", some "e"⟩
    rfl rfl rfl

/-! ## C8 -/

theorem recover_fold_components (L : List BatchJobRow) (s : DbState) :
    L.foldl (fun s j =>
      { requests := reset_processing_requests_for_job j.id s.requests,
        jobs := update_job_status j.id JobStatus.pending none none s.jobs }) s =
    ⟨L.foldl (fun js j => update_job_status j.id JobStatus.pending none none js) s.jobs,
     L.foldl (fun rs j => reset_processing_requests_for_job j.id rs) s.requests⟩ := by
  induction L generalizing s with
  | nil => rfl
  | cons j L ih =>
    simp only [List.foldl_cons]
    rw [ih]

theorem stats_fold_component (L : List BatchJobRow) (s : DbState) :
    L.foldl (fun s j => { s with jobs := reset_job_stats j.id s.jobs }) s =
    ⟨L.foldl (fun js j => reset_job_stats j.id js) s.jobs, s.requests⟩ := by
  induction L generalizing s with
  | nil => rfl
  | cons j L ih =>
    simp only [List.foldl_cons]
    rw [ih]

theorem foldl_reset_requests_eq (L : List BatchJobRow) (rows : List BatchRequest) :
    L.foldl (fun rs j => reset_processing_requests_for_job j.id rs) rows =
      rows.map (fun r => L.foldl (fun r je => resetProcessingRow je.id r) r) := by
  induction L generalizing rows with
  | nil => simp
  | cons a L ih =>
    simp only [List.foldl_cons]
    rw [ih,
      show reset_processing_requests_for_job a.id rows =
        rows.map (resetProcessingRow a.id) from rfl,
      List.map_map]
    rfl

theorem foldl_setPending_jobs_eq (L : List BatchJobRow) (rows : List BatchJobRow) :
    L.foldl (fun js j => update_job_status j.id JobStatus.pending none none js) rows =
      rows.map (fun x =>
        L.foldl (fun x je => updateJobStatusRow je.id JobStatus.pending none none x) x) := by
  induction L generalizing rows with
  | nil => simp
  | cons a L ih =>
    simp only [List.foldl_cons]
    rw [ih,
      show update_job_status a.id JobStatus.pending none none rows =
        rows.map (updateJobStatusRow a.id JobStatus.pending none none) from rfl,
      List.map_map]
    rfl

theorem foldl_resetStats_jobs_eq (L : List BatchJobRow) (rows : List BatchJobRow) :
    L.foldl (fun js j => reset_job_stats j.id js) rows =
      rows.map (fun x => L.foldl (fun x je => resetJobStatsRow je.id x) x) := by
  induction L generalizing rows with
  | nil => simp
  | cons a L ih =>
    simp only [List.foldl_cons]
    rw [ih,
      show reset_job_stats a.id rows = rows.map (resetJobStatsRow a.id) from rfl,
      List.map_map]
    rfl

/-- Pointwise form of the recovery sweep: every request row goes through the
reset fold of the recovered jobs, every job row through the set-pending fold
and then the stats-reset fold of the completed-but-incomplete jobs. -/
theorem recover_incomplete_jobs_eq (db : DbState) :
    recover_incomplete_jobs db =
      ⟨db.jobs.map (fun x =>
          (get_incomplete_completed_jobs db.jobs db.requests).foldl
            (fun x je => resetJobStatsRow je.id x)
            ((get_jobs_by_status JobStatus.processing db.jobs ++
                get_incomplete_completed_jobs db.jobs db.requests).foldl
              (fun x je => updateJobStatusRow je.id JobStatus.pending none none x) x)),
        db.requests.map (fun r =>
          (get_jobs_by_status JobStatus.processing db.jobs ++
              get_incomplete_completed_jobs db.jobs db.requests).foldl
            (fun r je => resetProcessingRow je.id r) r)⟩ := by
  unfold recover_incomplete_jobs
  dsimp only
  rw [recover_fold_components, stats_fold_component]
  dsimp only
  rw [foldl_reset_requests_eq, foldl_setPending_jobs_eq, foldl_resetStats_jobs_eq,
    List.map_map]
  rfl

theorem resetRow_fold_inactive (L : List BatchJobRow) (r : BatchRequest)
    (h1 : r.status ≠ RequestStatus.processing) (h2 : r.status ≠ RequestStatus.retrying) :
    L.foldl (fun r je => resetProcessingRow je.id r) r = r := by
  induction L with
  | nil => rfl
  | cons je L ih =>
    simp only [List.foldl_cons]
    rw [show resetProcessingRow je.id r = r from by simp [resetProcessingRow, h1, h2]]
    exact ih

theorem resetRow_fold_active (L : List BatchJobRow) (r : BatchRequest)
    (hst : r.status = RequestStatus.processing ∨ r.status = RequestStatus.retrying)
    (hmem : ∃ je ∈ L, je.id = r.batch_job_id) :
    L.foldl (fun r je => resetProcessingRow je.id r) r =
      { r with status := RequestStatus.pending, start_time := none, end_time := none } := by
  induction L with
  | nil => simp at hmem
  | cons j0 L ih =>
    simp only [List.foldl_cons]
    by_cases hj0 : j0.id = r.batch_job_id
    · rw [show resetProcessingRow j0.id r =
          { r with status := RequestStatus.pending, start_time := none,
                   end_time := none } from by
        cases hst with
        | inl h => simp [resetProcessingRow, hj0, h]
        | inr h => simp [resetProcessingRow, hj0, h]]
      exact resetRow_fold_inactive L _ (by simp) (by simp)
    · rw [show resetProcessingRow j0.id r = r from by
        simp [resetProcessingRow, show r.batch_job_id ≠ j0.id from fun h => hj0 h.symm]]
      apply ih
      obtain ⟨je, hje, hidj⟩ := hmem
      rcases List.mem_cons.mp hje with he | ht
      · exact absurd (he ▸ hidj) hj0
      · exact ⟨je, ht, hidj⟩

theorem setPendingRow_eq (jobId : Nat) (x : BatchJobRow) (h : x.id = jobId) :
    updateJobStatusRow jobId JobStatus.pending none none x =
      { x with status := JobStatus.pending } := by
  simp [updateJobStatusRow, h, truthyStr]

theorem setPendingRow_ne (jobId : Nat) (x : BatchJobRow) (h : x.id ≠ jobId) :
    updateJobStatusRow jobId JobStatus.pending none none x = x := by
  simp [updateJobStatusRow, h]

theorem setPending_fold_pending (L : List BatchJobRow) (x : BatchJobRow)
    (hx : x.status = JobStatus.pending) :
    L.foldl (fun x je => updateJobStatusRow je.id JobStatus.pending none none x) x = x := by
  induction L with
  | nil => rfl
  | cons je L ih =>
    simp only [List.foldl_cons]
    by_cases h : x.id = je.id
    · rw [setPendingRow_eq je.id x h,
        show { x with status := JobStatus.pending } = x from by cases x; simp_all]
      exact ih
    · rw [setPendingRow_ne je.id x h]
      exact ih

theorem setPending_fold_of_mem (L : List BatchJobRow) (x : BatchJobRow)
    (hmem : ∃ je ∈ L, je.id = x.id) :
    L.foldl (fun x je => updateJobStatusRow je.id JobStatus.pending none none x) x =
      { x with status := JobStatus.pending } := by
  induction L with
  | nil => simp at hmem
  | cons je0 L ih =>
    simp only [List.foldl_cons]
    by_cases h : x.id = je0.id
    · rw [setPendingRow_eq je0.id x h]
      exact setPending_fold_pending L _ rfl
    · rw [setPendingRow_ne je0.id x h]
      apply ih
      obtain ⟨je, hje, hidj⟩ := hmem
      rcases List.mem_cons.mp hje with he | ht
      · exact absurd (he ▸ hidj).symm h
      · exact ⟨je, ht, hidj⟩

theorem setPending_fold_of_not_mem (L : List BatchJobRow) (x : BatchJobRow)
    (h : ∀ je ∈ L, je.id ≠ x.id) :
    L.foldl (fun x je => updateJobStatusRow je.id JobStatus.pending none none x) x = x := by
  induction L with
  | nil => rfl
  | cons je0 L ih =>
    simp only [List.foldl_cons]
    rw [setPendingRow_ne je0.id x (fun he => h je0 (by simp) he.symm)]
    exact ih (fun je hje => h je (List.mem_cons_of_mem _ hje))

theorem setPending_fold_id (L : List BatchJobRow) (x : BatchJobRow) :
    (L.foldl (fun x je => updateJobStatusRow je.id JobStatus.pending none none x) x).id =
      x.id := by
  by_cases h : ∃ je ∈ L, je.id = x.id
  · rw [setPending_fold_of_mem L x h]
  · rw [setPending_fold_of_not_mem L x (by push_neg at h; exact h)]

theorem resetStatsRow_eq (jobId : Nat) (x : BatchJobRow) (h : x.id = jobId) :
    resetJobStatsRow jobId x =
      { x with success_count := 0, failed_count := 0, start_time := none,
               end_time := none } := by
  simp [resetJobStatsRow, h]

theorem resetStatsRow_ne (jobId : Nat) (x : BatchJobRow) (h : x.id ≠ jobId) :
    resetJobStatsRow jobId x = x := by
  simp [resetJobStatsRow, h]

theorem resetStats_fold_zeroed (L : List BatchJobRow) (x : BatchJobRow)
    (h0 : x.success_count = 0) (h1 : x.failed_count = 0) (h2 : x.start_time = none)
    (h3 : x.end_time = none) :
    L.foldl (fun x je => resetJobStatsRow je.id x) x = x := by
  induction L with
  | nil => rfl
  | cons je L ih =>
    simp only [List.foldl_cons]
    by_cases h : x.id = je.id
    · rw [resetStatsRow_eq je.id x h,
        show { x with success_count := 0, failed_count := 0, start_time := none,
                      end_time := none } = x from by cases x; simp_all]
      exact ih
    · rw [resetStatsRow_ne je.id x h]
      exact ih

theorem resetStats_fold_of_mem (L : List BatchJobRow) (x : BatchJobRow)
    (hmem : ∃ je ∈ L, je.id = x.id) :
    L.foldl (fun x je => resetJobStatsRow je.id x) x =
      { x with success_count := 0, failed_count := 0, start_time := none,
               end_time := none } := by
  induction L with
  | nil => simp at hmem
  | cons je0 L ih =>
    simp only [List.foldl_cons]
    by_cases h : x.id = je0.id
    · rw [resetStatsRow_eq je0.id x h]
      exact resetStats_fold_zeroed L _ rfl rfl rfl rfl
    · rw [resetStatsRow_ne je0.id x h]
      apply ih
      obtain ⟨je, hje, hidj⟩ := hmem
      rcases List.mem_cons.mp hje with he | ht
      · exact absurd (he ▸ hidj).symm h
      · exact ⟨je, ht, hidj⟩

theorem resetStats_fold_of_not_mem (L : List BatchJobRow) (x : BatchJobRow)
    (h : ∀ je ∈ L, je.id ≠ x.id) :
    L.foldl (fun x je => resetJobStatsRow je.id x) x = x := by
  induction L with
  | nil => rfl
  | cons je0 L ih =>
    simp only [List.foldl_cons]
    rw [resetStatsRow_ne je0.id x (fun he => h je0 (by simp) he.symm)]
    exact ih (fun je hje => h je (List.mem_cons_of_mem _ hje))

theorem resetStats_fold_id (L : List BatchJobRow) (x : BatchJobRow) :
    (L.foldl (fun x je => resetJobStatsRow je.id x) x).id = x.id := by
  by_cases h : ∃ je ∈ L, je.id = x.id
  · rw [resetStats_fold_of_mem L x h]
  · rw [resetStats_fold_of_not_mem L x (by push_neg at h; exact h)]

theorem resetStats_fold_status (L : List BatchJobRow) (x : BatchJobRow) :
    (L.foldl (fun x je => resetJobStatsRow je.id x) x).status = x.status := by
  by_cases h : ∃ je ∈ L, je.id = x.id
  · rw [resetStats_fold_of_mem L x h]
  · rw [resetStats_fold_of_not_mem L x (by push_neg at h; exact h)]

/-- C8: the recovery sweep, for every job stuck in `processing` and every job
marked `completed` that still owns a non-terminal request, resets that job's
`processing`/`retrying` requests to `pending` with their start and end times
cleared, keeps its other requests unchanged, resets the job's status to
`pending`, and additionally zeroes `success_count`/`failed_count` for the
completed-but-incomplete jobs. -/
theorem recovery_sweep_resets (db : DbState) (j : BatchJobRow) (hj : j ∈ db.jobs)
    (hrec : j.status = JobStatus.processing ∨
      (j.status = JobStatus.completed ∧
        ∃ r ∈ db.requests, r.batch_job_id = j.id ∧ isNonTerminal r.status = true)) :
    (∀ r ∈ db.requests, r.batch_job_id = j.id →
      ((r.status = RequestStatus.processing ∨ r.status = RequestStatus.retrying) →
        { r with status := RequestStatus.pending, start_time := none, end_time := none }
          ∈ (recover_incomplete_jobs db).requests) ∧
      (r.status ≠ RequestStatus.processing → r.status ≠ RequestStatus.retrying →
        r ∈ (recover_incomplete_jobs db).requests)) ∧
    (∀ jr ∈ (recover_incomplete_jobs db).jobs, jr.id = j.id →
      jr.status = JobStatus.pending ∧
      (j.status = JobStatus.completed →
        jr.success_count = 0 ∧ jr.failed_count = 0)) := by
  have hmem_all : ∃ je ∈ get_jobs_by_status JobStatus.processing db.jobs ++
      get_incomplete_completed_jobs db.jobs db.requests, je.id = j.id := by
    rcases hrec with hst | ⟨hst, r, hr, hrown, hnt⟩
    · exact ⟨j, List.mem_append_left _ (List.mem_filter.mpr ⟨hj, by simp [hst]⟩), rfl⟩
    · have hany : (db.requests.any
          fun r => r.batch_job_id == j.id && isNonTerminal r.status) = true :=
        List.any_eq_true.mpr ⟨r, hr, by simp [hrown, hnt]⟩
      exact ⟨j, List.mem_append_right _
        (List.mem_filter.mpr ⟨hj, by simp [hst, hany]⟩), rfl⟩
  have hmem_inc : j.status = JobStatus.completed →
      ∃ je ∈ get_incomplete_completed_jobs db.jobs db.requests, je.id = j.id := by
    intro hst
    rcases hrec with hst2 | ⟨_, r, hr, hrown, hnt⟩
    · rw [hst] at hst2
      cases hst2
    · have hany : (db.requests.any
          fun r => r.batch_job_id == j.id && isNonTerminal r.status) = true :=
        List.any_eq_true.mpr ⟨r, hr, by simp [hrown, hnt]⟩
      exact ⟨j, List.mem_filter.mpr ⟨hj, by simp [hst, hany]⟩, rfl⟩
  constructor
  · intro r hr hrown
    constructor
    · intro hst
      rw [recover_incomplete_jobs_eq]
      refine List.mem_map.mpr ⟨r, hr, ?_⟩
      apply resetRow_fold_active _ r hst
      obtain ⟨je, hje, hidj⟩ := hmem_all
      exact ⟨je, hje, by rw [hrown]; exact hidj⟩
    · intro h1 h2
      rw [recover_incomplete_jobs_eq]
      refine List.mem_map.mpr ⟨r, hr, ?_⟩
      exact resetRow_fold_inactive _ r h1 h2
  · intro jr hjr hjrid
    rw [recover_incomplete_jobs_eq] at hjr
    obtain ⟨x, hx, hmap⟩ := List.mem_map.mp hjr
    have hxid : x.id = j.id := by
      rw [← hjrid, ← hmap, resetStats_fold_id, setPending_fold_id]
    have hpend :
        (get_jobs_by_status JobStatus.processing db.jobs ++
            get_incomplete_completed_jobs db.jobs db.requests).foldl
          (fun x je => updateJobStatusRow je.id JobStatus.pending none none x) x =
        { x with status := JobStatus.pending } := by
      apply setPending_fold_of_mem
      obtain ⟨je, hje, hidj⟩ := hmem_all
      exact ⟨je, hje, by rw [hxid]; exact hidj⟩
    constructor
    · rw [← hmap, resetStats_fold_status, hpend]
    · intro hst
      have hzero := resetStats_fold_of_mem
        (get_incomplete_completed_jobs db.jobs db.requests)
        { x with status := JobStatus.pending }
        (by
          obtain ⟨je, hje, hidj⟩ := hmem_inc hst
          exact ⟨je, hje, by show je.id = x.id; rw [hxid]; exact hidj⟩)
      rw [← hmap, hpend, hzero]
      exact ⟨rfl, rfl⟩

/-- Witness for C8: one job stuck in `processing` owning one `processing`
request. -/
theorem recovery_sweep_resets_witness :
    (∀ r ∈ [(⟨1, 1, 0, [], RequestStatus.processing, 0, none, 0, 0, 0, some "s", none⟩ :
        BatchRequest)], r.batch_job_id = 1 →
      ((r.status = RequestStatus.processing ∨ r.status = RequestStatus.retrying) →
        { r with status := RequestStatus.pending, start_time := none, end_time := none }
          ∈ (recover_incomplete_jobs
            ⟨[⟨1, "b", 1, JobStatus.processing, 1, 1, 3, 0, 0, some "s", none⟩],
              [⟨1, 1, 0, [], RequestStatus.processing, 0, none, 0, 0, 0, some "s",
                none⟩]⟩).requests) ∧
      (r.status ≠ RequestStatus.processing → r.status ≠ RequestStatus.retrying →
        r ∈ (recover_incomplete_jobs
          ⟨[⟨1, "b", 1, JobStatus.processing, 1, 1, 3, 0, 0, some "s", none⟩],
            [⟨1, 1, 0, [], RequestStatus.processing, 0, none, 0, 0, 0, some "s",
              none⟩]⟩).requests)) ∧
    (∀ jr ∈ (recover_incomplete_jobs
        ⟨[⟨1, "b", 1, JobStatus.processing, 1, 1, 3, 0, 0, some "s", none⟩],
          [⟨1, 1, 0, [], RequestStatus.processing, 0, none, 0, 0, 0, some "s",
            none⟩]⟩).jobs, jr.id = 1 →
      jr.status = JobStatus.pending ∧
      ((⟨1, "b", 1, JobStatus.processing, 1, 1, 3, 0, 0, some "s", none⟩ :
          BatchJobRow).status = JobStatus.completed →
        jr.success_count = 0 ∧ jr.failed_count = 0)) :=
  recovery_sweep_resets
    ⟨[⟨1, "b", 1, JobStatus.processing, 1, 1, 3, 0, 0, some "s", none⟩],
      [⟨1, 1, 0, [], RequestStatus.processing, 0, none, 0, 0, 0, some "s", none⟩]⟩
    ⟨1, "b", 1, JobStatus.processing, 1, 1, 3, 0, 0, some "s", none⟩
    (by simp) (Or.inl rfl)

/-- Witness for C3: a pending request with exhausted retries, a non-empty
body and positive tokens is repaired to `success` by the conditional finalize. -/
theorem conditional_finalize_spec_witness :
    { (⟨1, 1, 0, [], RequestStatus.pending, 1, some "x", 1, 0, 1, none, none⟩ : BatchRequest)
        with status := RequestStatus.success, end_time := some ((none : Option String).getD "n") }
      ∈ finalize_incomplete_requests_for_job 1 1 "n"
        [⟨1, 1, 0, [], RequestStatus.pending, 1, some "x", 1, 0, 1, none, none⟩] :=
  ((conditional_finalize_spec 1 1 "n"
      [⟨1, 1, 0, [], RequestStatus.pending, 1, some "x", 1, 0, 1, none, none⟩]
      ⟨1, 1, 0, [], RequestStatus.pending, 1, some "x", 1, 0, 1, none, none⟩
      (by simp) rfl rfl).2 (Or.inl (by decide))).1 rfl (by decide)

end SimpleBatch
